import Mathlib

/-!
A shallow embedding of the WeCare application core (`src/app.py`):
the content-moderation and distress-triage keyword gates, the chat
response path, and the persistence operations for users, posts,
comments and volunteers, together with theorems about them.

Python strings are modelled as Lean `String` (character lists), the
Python substring test `needle in hay` as an executable containment
check on character lists, `str.lower` as ASCII case folding, and
`str.strip` as dropping whitespace at both ends.  The SQLite store is
modelled as in-memory lists of rows; `ORDER BY` clauses become
`List.mergeSort`.  The external OpenAI call is a parameter
`gen : String → Except String String` (an exception is an error value
carrying `str(e)`).
-/

namespace WeCare

/-- The test `hasPre n h` is true iff `n` is a leading segment of `h`
(helper for the Python substring test). -/
def hasPre : List Char → List Char → Bool
  | [], _ => true
  | _ :: _, [] => false
  | c :: cs, d :: ds => c == d && hasPre cs ds

/-- Python `needle in hay` on lists of characters: some tail of `hay`
starts with `needle`. -/
def hasSub : List Char → List Char → Bool
  | [], needle => needle.isEmpty
  | hay@(_ :: t), needle => hasPre needle hay || hasSub t needle

/-- Python `needle in hay` on strings. -/
def strContains (hay needle : String) : Bool :=
  hasSub hay.data needle.data

/-- Python `str.lower` (ASCII case folding; the keyword lists are ASCII). -/
def strLower (s : String) : String :=
  ⟨s.data.map Char.toLower⟩

/-- Python `str.strip`: remove leading and trailing whitespace. -/
def pyStrip (s : String) : String :=
  ⟨((s.data.dropWhile Char.isWhitespace).reverse.dropWhile Char.isWhitespace).reverse⟩

/-- Embedded from src/app.py lines 186-187: the fixed forbidden-term list of the
Moderation Engine. -/
def FORBIDDEN_WORDS : List String :=
  ["hate", "violence", "kill", "drugs", "slur", "explicit",
   "harm myself", "harm others", "suicide", "murder", "rape", "sex act", "child abuse"]

/-- Embedded from src/app.py lines 190-193: `moderate_content` — true (blocked) iff the
lower-cased text contains any forbidden word. -/
def moderate_content (text : String) : Bool :=
  FORBIDDEN_WORDS.any (fun word => strContains (strLower text) word)

/-- Embedded from src/app.py lines 197-201: the fixed distress-phrase list of the
Triage Engine. -/
def DISTRESS_KEYWORDS : List String :=
  ["end it", "kill myself", "can\x27t cope", "suicidal", "self harm",
   "overdose", "overdosed", "harm myself", "harm others",
   "want to die", "hopeless", "worthless", "no point"]

/-- Embedded from src/app.py lines 204-213: the fixed emergency response message. -/
def EMERGENCY_RESPONSE : String :=
  "🚨 It sounds like you might be in serious distress. Please know you\x27re not alone. Here are some emergency contacts and steps you can take immediately:\n\n- **Kenya Red Cross Mental Health Hotline:** 1199 (24/7)\n- **Befrienders Kenya:** +254 722 178177 (7 AM - 7 PM)\n- **EMKF Suicide Prevention & Crisis Helpline:** 0800 723 253\n- Or dial your **local emergency services (e.g., 999 or 112 in Kenya)**.\n\n**Please reach out to a professional or trusted person right away. You deserve support.**\n\n_I’m an AI and cannot provide medical diagnosis or crisis intervention. Please seek immediate human professional help._"

/-- Embedded from src/app.py lines 216-219: `detect_distress_ai` — true iff the
lower-cased message contains any distress keyword. -/
def detect_distress_ai (message : String) : Bool :=
  DISTRESS_KEYWORDS.any (fun keyword => strContains (strLower message) keyword)

/-- Embedded from src/app.py line 239: the fixed prefix of the chat fallback message;
the f-string appends `str(e)` after it. -/
def FALLBACK_PREFIX : String :=
  "⚠️ I\x27m sorry, I\x27m having trouble connecting right now. Please try again later. Error: "

/-- Embedded from src/app.py lines 222-239: `generate_ai_response`.  The external
OpenAI call is the parameter `gen`; `Except.error e` is a raised
exception whose `str(e)` is `e`.  On success the code returns the
generated text stripped; on an exception it returns the fallback
f-string. -/
def generate_ai_response (gen : String → Except String String) (user_input : String) : String :=
  if detect_distress_ai user_input then
    EMERGENCY_RESPONSE
  else
    match gen user_input with
    | Except.ok s => pyStrip s
    | Except.error e => FALLBACK_PREFIX ++ e

/-- A row of the `users` table (src/app.py lines 34-41). -/
structure UserRow where
  id : Nat
  username : String
  password : String
  role : String
deriving DecidableEq

/-- A row of the `posts` table (src/app.py lines 43-52); `anonymous` is
the stored integer flag, `timestamp` the store-assigned insert time. -/
structure PostRow where
  id : Nat
  user_id : Nat
  content : String
  timestamp : Nat
  anonymous : Nat
deriving DecidableEq

/-- A row of the `comments` table (src/app.py lines 54-64). -/
structure CommentRow where
  id : Nat
  post_id : Nat
  user_id : Nat
  content : String
  timestamp : Nat
deriving DecidableEq

/-- A row of the `volunteers` table (src/app.py lines 66-75). -/
structure VolunteerRow where
  id : Nat
  name : String
  role : String
  bio : String
  image_path : String
  timestamp : Nat
deriving DecidableEq

/-- The SQLite database `wecare.db` as in-memory tables. -/
structure DB where
  users : List UserRow
  posts : List PostRow
  comments : List CommentRow
  volunteers : List VolunteerRow
deriving DecidableEq

/-- Database-level failures surfaced to callers; the `UNIQUE` constraint
on `users.username` raises `sqlite3.IntegrityError`, which the
registration handler (src/app.py lines 294-296) reports as a duplicate
username, distinct from the generic `Exception` branch. -/
inductive DBError where
  | duplicateUsername
deriving DecidableEq

/-- Embedded from src/app.py lines 80-87: `add_user` — `INSERT INTO users`; the
`UNIQUE NOT NULL` constraint on `username` makes the insert fail when a
row with that username already exists; `role` takes its default. -/
def add_user (db : DB) (username hashed_password : String) : Except DBError DB :=
  if db.users.any (fun u => u.username == username) then
    Except.error DBError.duplicateUsername
  else
    Except.ok { db with
      users := db.users ++
        [{ id := db.users.length + 1, username := username,
           password := hashed_password, role := "user" }] }

/-- The state the caller is left with after an `Except`-returning
operation: on error the database is unchanged. -/
def dbAfter (db : DB) : Except DBError DB → DB
  | Except.ok db2 => db2
  | Except.error _ => db

/-- The row inserted by `add_post` for a given database state
(src/app.py lines 101-108): the caller supplies `user_id`, `content`
and the `anonymous` flag; `id` autoincrements and `timestamp` is
store-assigned. -/
def post_row (db : DB) (user_id : Nat) (content : String) (anonymous : Nat) (ts : Nat) : PostRow :=
  { id := db.posts.length + 1, user_id := user_id, content := content,
    timestamp := ts, anonymous := anonymous }

/-- Embedded from src/app.py lines 101-108: `add_post` — `INSERT INTO posts`. -/
def add_post (db : DB) (user_id : Nat) (content : String) (anonymous : Nat) (ts : Nat) : DB :=
  { db with posts := db.posts ++ [post_row db user_id content anonymous ts] }

/-- Embedded from src/app.py lines 111-119: `get_all_posts` —
`SELECT ... FROM posts ORDER BY timestamp DESC`. -/
def get_all_posts (db : DB) : List PostRow :=
  db.posts.mergeSort (fun a b => b.timestamp ≤ a.timestamp)

/-- Embedded from src/app.py lines 122-129: `get_username_by_id` — returns the
username, or the literal sentinel `"Unknown"` when the id does not
resolve. -/
def get_username_by_id (db : DB) (user_id : Nat) : String :=
  match db.users.find? (fun u => u.id == user_id) with
  | some u => u.username
  | none => "Unknown"

/-- The row inserted by `add_comment` (src/app.py lines 132-139). -/
def comment_row (db : DB) (post_id user_id : Nat) (content : String) (ts : Nat) : CommentRow :=
  { id := db.comments.length + 1, post_id := post_id, user_id := user_id,
    content := content, timestamp := ts }

/-- Embedded from src/app.py lines 132-139: `add_comment` — `INSERT INTO comments`. -/
def add_comment (db : DB) (post_id user_id : Nat) (content : String) (ts : Nat) : DB :=
  { db with comments := db.comments ++ [comment_row db post_id user_id content ts] }

/-- Embedded from src/app.py lines 142-149: `get_comments` — `SELECT ... FROM comments
WHERE post_id = ? ORDER BY timestamp ASC`. -/
def get_comments (db : DB) (post_id : Nat) : List CommentRow :=
  (db.comments.filter (fun c => c.post_id == post_id)).mergeSort
    (fun a b => a.timestamp ≤ b.timestamp)

/-- The row inserted by `add_volunteer` (src/app.py lines 152-159). -/
def vol_row (db : DB) (name role bio image_path : String) (ts : Nat) : VolunteerRow :=
  { id := db.volunteers.length + 1, name := name, role := role, bio := bio,
    image_path := image_path, timestamp := ts }

/-- Embedded from src/app.py lines 152-159: `add_volunteer` — `INSERT INTO volunteers`. -/
def add_volunteer (db : DB) (name role bio image_path : String) (ts : Nat) : DB :=
  { db with volunteers := db.volunteers ++ [vol_row db name role bio image_path ts] }

/-- Embedded from src/app.py line 365: the displayed attribution of a post —
`"Anonymous" if is_anon else get_username_by_id(user_id)`; the stored
integer flag is truthy iff nonzero. -/
def display_author (db : DB) (p : PostRow) : String :=
  if p.anonymous ≠ 0 then "Anonymous" else get_username_by_id db p.user_id

/-- Embedded from src/app.py lines 345-354: the post-form handler of `forum_page`.
An empty-after-strip body or a flagged body only produces a warning and
never reaches `add_post`; otherwise the post is persisted. -/
def submit_post (db : DB) (user_id : Nat) (content : String) (anonymous : Bool) (ts : Nat) : DB :=
  if (pyStrip content).data.isEmpty then db
  else if moderate_content content then db
  else add_post db user_id content (if anonymous then 1 else 0) ts

/-- Embedded from src/app.py lines 389-399: the comment-form handler of `forum_page`.
Same guards as the post form, then `add_comment`. -/
def submit_comment (db : DB) (post_id user_id : Nat) (comment_input : String) (ts : Nat) : DB :=
  if (pyStrip comment_input).data.isEmpty then db
  else if moderate_content comment_input then db
  else add_comment db post_id user_id comment_input ts

/-- The claim C3 invariant: every persisted post or comment body is
non-empty after trimming and re-classifies as allowed. -/
def bodiesOK (db : DB) : Prop :=
  (∀ p ∈ db.posts, moderate_content p.content = false ∧ (pyStrip p.content).data.isEmpty = false) ∧
  (∀ c ∈ db.comments, moderate_content c.content = false ∧ (pyStrip c.content).data.isEmpty = false)

/-- The uploaded-image directory as a write-shadowing list of
(path, bytes) entries; a write puts the new entry in front. -/
def write_file (fs : List (String × List Nat)) (path : String) (bytes : List Nat) :
    List (String × List Nat) :=
  (path, bytes) :: fs

/-- Reading a path returns the most recently written bytes for it. -/
def read_file (fs : List (String × List Nat)) (path : String) : Option (List Nat) :=
  (fs.find? (fun e => e.1 == path)).map (fun e => e.2)

/-- Combined state of the image directory and the database for the
volunteer page. -/
structure VolState where
  files : List (String × List Nat)
  db : DB

/-- Embedded from src/app.py lines 494-513: the volunteer-registration handler.
Missing text fields or a missing upload only warn; otherwise the image
bytes are written to `volunteer_images/<filename>` (overwriting any
existing file at that path) and the record is inserted with that path. -/
def register_volunteer (st : VolState) (name role bio : String)
    (upload : Option (String × List Nat)) (ts : Nat) : VolState :=
  if name.data.isEmpty || role.data.isEmpty || bio.data.isEmpty then st
  else
    match upload with
    | none => st
    | some (fname, bytes) =>
      let img_path := "volunteer_images/" ++ fname
      { files := write_file st.files img_path bytes,
        db := add_volunteer st.db name role bio img_path ts }

/-! ### Spec-worded Moderation Engine interface (for comparison) -/

/-- Result type of the Moderation Engine as the spec words it:
`Allowed`, or `Blocked` carrying the full matched term set. -/
inductive ModResult where
  | Allowed : ModResult
  | Blocked : List String → ModResult
deriving DecidableEq

/-- Modelled from the spec words of §4.2 ("return the full matched set,
not merely a boolean"): classify text, collecting every forbidden term
the lower-cased text contains. -/
def moderate_content_spec (text : String) : ModResult :=
  match FORBIDDEN_WORDS.filter (fun word => strContains (strLower text) word) with
  | [] => ModResult.Allowed
  | matched => ModResult.Blocked matched

/-! ### Characterization of the substring test -/

/-- The test `hasPre n h` holds exactly when `h` extends `n` on the right. -/
theorem hasPre_iff (n : List Char) : ∀ h, hasPre n h = true ↔ ∃ r, h = n ++ r := by
  induction n with
  | nil => intro h; simp [hasPre]
  | cons c cs ih =>
    intro h
    cases h with
    | nil => simp [hasPre]
    | cons d ds =>
      rw [hasPre]
      simp only [Bool.and_eq_true, beq_iff_eq, ih ds, List.cons_append, List.cons.injEq]
      constructor
      · rintro ⟨rfl, r, rfl⟩
        exact ⟨r, rfl, rfl⟩
      · rintro ⟨r, rfl, rfl⟩
        exact ⟨rfl, r, rfl⟩

/-- The test `hasSub h n` holds exactly when `h` decomposes around an occurrence
of `n`. -/
theorem hasSub_iff (h n : List Char) : hasSub h n = true ↔ ∃ l r, h = l ++ (n ++ r) := by
  induction h with
  | nil =>
    rw [hasSub]
    simp only [List.isEmpty_iff]
    constructor
    · rintro rfl
      exact ⟨[], [], rfl⟩
    · rintro ⟨l, r, hEq⟩
      rcases List.append_eq_nil.mp hEq.symm with ⟨rfl, h2⟩
      exact (List.append_eq_nil.mp h2).1
  | cons c t ih =>
    rw [hasSub]
    simp only [Bool.or_eq_true, hasPre_iff, ih]
    constructor
    · rintro (⟨r, hEq⟩ | ⟨l, r, rfl⟩)
      · exact ⟨[], r, by simpa using hEq⟩
      · exact ⟨c :: l, r, rfl⟩
    · rintro ⟨l, r, hEq⟩
      cases l with
      | nil => exact Or.inl ⟨r, by simpa using hEq⟩
      | cons x xs =>
        simp only [List.cons_append, List.cons.injEq] at hEq
        exact Or.inr ⟨xs, r, hEq.2⟩

/-- Substring containment is transitive. -/
theorem hasSub_trans {h m n : List Char} (h1 : hasSub m n = true)
    (h2 : hasSub h m = true) : hasSub h n = true := by
  rw [hasSub_iff] at h1 h2 ⊢
  obtain ⟨l1, r1, rfl⟩ := h1
  obtain ⟨l2, r2, rfl⟩ := h2
  exact ⟨l2 ++ l1, r1 ++ r2, by simp⟩

/-- Mapping a character function preserves substring containment. -/
theorem hasSub_map (f : Char → Char) {h n : List Char} (hs : hasSub h n = true) :
    hasSub (h.map f) (n.map f) = true := by
  rw [hasSub_iff] at hs ⊢
  obtain ⟨l, r, rfl⟩ := hs
  exact ⟨l.map f, r.map f, by simp⟩

/-- A substring of a list all of whose characters satisfy `p` also has
all characters satisfying `p`. -/
theorem all_of_hasSub (p : Char → Bool) {h n : List Char} (hs : hasSub h n = true)
    (hall : h.all p = true) : n.all p = true := by
  rw [hasSub_iff] at hs
  obtain ⟨l, r, rfl⟩ := hs
  simp only [List.all_append, Bool.and_eq_true] at hall
  exact hall.2.1

/-- Case folding leaves whitespace characters unchanged. -/
theorem toLower_whitespace {c : Char} (hc : c.isWhitespace = true) :
    Char.toLower c = c := by
  simp only [Char.isWhitespace, Bool.or_eq_true, decide_eq_true_eq] at hc
  rcases hc with ((rfl | rfl) | rfl) | rfl <;> decide

/-- Lower-casing a whitespace-only string yields a whitespace-only string. -/
theorem strLower_all_whitespace {t : String} (h : t.data.all Char.isWhitespace = true) :
    (strLower t).data.all Char.isWhitespace = true := by
  rw [strLower]
  simp only [List.all_map, List.all_eq_true, Function.comp] at h ⊢
  intro c hc
  rw [toLower_whitespace (h c hc)]
  exact h c hc

/-- A term of the forbidden list contained in the lower-cased text
makes `moderate_content` block. -/
theorem moderate_content_of_mem {w t : String} (hw : w ∈ FORBIDDEN_WORDS)
    (hc : strContains (strLower t) w = true) : moderate_content t = true := by
  simp only [moderate_content, List.any_eq_true]
  exact ⟨w, hw, hc⟩

/-- A distress keyword contained in the lower-cased message makes
`detect_distress_ai` fire. -/
theorem detect_distress_of_mem {k t : String} (hk : k ∈ DISTRESS_KEYWORDS)
    (hc : strContains (strLower t) k = true) : detect_distress_ai t = true := by
  simp only [detect_distress_ai, List.any_eq_true]
  exact ⟨k, hk, hc⟩

/-! ### Claims -/

/-- C1: a chat message whose lower-cased text contains a distress
keyword always yields the fixed `EMERGENCY_RESPONSE`, and the result is
independent of the external generator, which is never consulted. -/
theorem C1_distress_short_circuit (user_input : String)
    (gen gen2 : String → Except String String)
    (h : ∃ k ∈ DISTRESS_KEYWORDS, strContains (strLower user_input) k = true) :
    generate_ai_response gen user_input = EMERGENCY_RESPONSE ∧
    generate_ai_response gen user_input = generate_ai_response gen2 user_input := by
  obtain ⟨k, hk, hc⟩ := h
  have hd : detect_distress_ai user_input = true := detect_distress_of_mem hk hc
  rw [generate_ai_response, generate_ai_response, if_pos hd, if_pos hd]
  exact ⟨rfl, rfl⟩

/-- C1 witness at the concrete message "I want to die". -/
theorem C1_distress_short_circuit_witness :
    generate_ai_response (fun _ => Except.ok "generated text") "I want to die" =
      EMERGENCY_RESPONSE :=
  (C1_distress_short_circuit "I want to die" (fun _ => Except.ok "generated text")
    (fun _ => Except.error "boom") ⟨"want to die", by decide, by decide⟩).1

/-- C2 counterexample: `moderate_content` returns only a boolean, so the
inputs "hate" and "hate violence" — which the spec-worded classifier
separates by their different matched sets — get the very same return
value; no matched set is part of the code's result. -/
theorem C2_no_matched_set_cex :
    moderate_content "hate" = moderate_content "hate violence" ∧
    moderate_content "hate" = true ∧
    moderate_content_spec "hate" ≠ moderate_content_spec "hate violence" := by
  decide

/-- C2 amended: `moderate_content` blocks (returns `true`) exactly when
the lower-cased text contains some forbidden term, and allows (returns
`false`) otherwise — in particular on empty or whitespace-only text;
it reports no matched set, only this boolean. -/
theorem C2_boolean_classification (t : String) :
    (moderate_content t = true ↔ ∃ w ∈ FORBIDDEN_WORDS, strContains (strLower t) w = true) ∧
    (t.data.all Char.isWhitespace = true → moderate_content t = false) := by
  constructor
  · simp [moderate_content, List.any_eq_true]
  · intro hws
    by_contra hmc
    rw [Bool.not_eq_false, moderate_content, List.any_eq_true] at hmc
    obtain ⟨w, hw, hc⟩ := hmc
    have hwall : w.data.all Char.isWhitespace = true :=
      all_of_hasSub _ hc (strLower_all_whitespace hws)
    have hno : ∀ v ∈ FORBIDDEN_WORDS, v.data.any (fun c => ! c.isWhitespace) = true := by
      decide
    obtain ⟨c, hcmem, hcneg⟩ := List.any_eq_true.mp (hno w hw)
    have := List.all_eq_true.mp hwall c hcmem
    simp only [Bool.not_eq_true'] at hcneg
    rw [this] at hcneg
    exact Bool.noConfusion hcneg

/-- C2 witness: the amended theorem evaluated on whitespace-only text. -/
theorem C2_boolean_classification_witness :
    moderate_content "   " = false :=
  (C2_boolean_classification "   ").2 (by decide)

/-- C4 counterexample: "harm myself" and "harm others" belong to both
the forbidden-term list and the distress-phrase list, so the two fixed
sets are not disjoint. -/
theorem C4_overlap_cex :
    "harm myself" ∈ FORBIDDEN_WORDS ∧ "harm myself" ∈ DISTRESS_KEYWORDS ∧
    "harm others" ∈ FORBIDDEN_WORDS ∧ "harm others" ∈ DISTRESS_KEYWORDS := by
  decide

/-- C4 amended: the two fixed lists overlap in exactly the two phrases
"harm myself" and "harm others"; every other phrase belongs to at most
one of the two sets. -/
theorem C4_overlap_exactly_two :
    FORBIDDEN_WORDS.filter (fun w => DISTRESS_KEYWORDS.contains w) =
      ["harm myself", "harm others"] ∧
    DISTRESS_KEYWORDS.filter (fun k => FORBIDDEN_WORDS.contains k) =
      ["harm myself", "harm others"] := by
  decide

/-- C5 counterexample: two different generator failures for the same
non-distress message produce two different replies — the error text is
interpolated into the fallback — so there is no single fixed fallback
string shared by every failure. -/
theorem C5_varying_fallback_cex :
    generate_ai_response (fun _ => Except.error "Timeout") "hello" ≠
      generate_ai_response (fun _ => Except.error "RateLimitError") "hello" := by
  decide

/-- C5 amended: on any generator failure for a non-distress message the
chat path never propagates the error and returns a fallback reply made
of the fixed apologetic prefix followed by the error's text (so some
textual reply is always produced, but it varies with the error). -/
theorem C5_fallback_on_failure (m e : String) (gen : String → Except String String)
    (hnd : detect_distress_ai m = false) (hg : gen m = Except.error e) :
    generate_ai_response gen m = FALLBACK_PREFIX ++ e := by
  rw [generate_ai_response, if_neg (by simp [hnd]), hg]

/-- C5 witness at the concrete message "hello" and error "Timeout". -/
theorem C5_fallback_on_failure_witness :
    generate_ai_response (fun _ => Except.error "Timeout") "hello" =
      FALLBACK_PREFIX ++ "Timeout" :=
  C5_fallback_on_failure "hello" "Timeout" (fun _ => Except.error "Timeout")
    (by decide) rfl

/-- C9: the keyword gates use raw substring containment with no
word-boundary check: any text containing "skill" or "killed" is blocked
(both embed "kill"), and any text containing "hopelessly" is classified
as distress (it embeds "hopeless"). -/
theorem C9_no_word_boundaries (t : String) :
    (strContains t "skill" = true → moderate_content t = true) ∧
    (strContains t "killed" = true → moderate_content t = true) ∧
    (strContains t "hopelessly" = true → detect_distress_ai t = true) := by
  refine ⟨fun h1 => ?_, fun h2 => ?_, fun h3 => ?_⟩
  · apply moderate_content_of_mem (w := "kill") (by decide)
    show hasSub (strLower t).data "kill".data = true
    have hmap := hasSub_map Char.toLower h1
    rw [show ("skill".data.map Char.toLower) = "skill".data from by decide] at hmap
    exact hasSub_trans (by decide) hmap
  · apply moderate_content_of_mem (w := "kill") (by decide)
    show hasSub (strLower t).data "kill".data = true
    have hmap := hasSub_map Char.toLower h2
    rw [show ("killed".data.map Char.toLower) = "killed".data from by decide] at hmap
    exact hasSub_trans (by decide) hmap
  · apply detect_distress_of_mem (k := "hopeless") (by decide)
    show hasSub (strLower t).data "hopeless".data = true
    have hmap := hasSub_map Char.toLower h3
    rw [show ("hopelessly".data.map Char.toLower) = "hopelessly".data from by decide] at hmap
    exact hasSub_trans (by decide) hmap

/-- C9 witness on three concrete innocuous texts. -/
theorem C9_no_word_boundaries_witness :
    moderate_content "chess takes skill" = true ∧
    moderate_content "they killed the bug" = true ∧
    detect_distress_ai "hopelessly lost in a maze" = true :=
  ⟨(C9_no_word_boundaries "chess takes skill").1 (by decide),
   (C9_no_word_boundaries "they killed the bug").2.1 (by decide),
   (C9_no_word_boundaries "hopelessly lost in a maze").2.2 (by decide)⟩

/-- C3: the forum handlers preserve the invariant that every persisted
post or comment body is non-empty after trimming and re-classifies as
allowed; a blank or blocked body leaves the database untouched, so the
insert is never invoked for it. -/
theorem C3_persisted_bodies_moderated (db : DB) (hdb : bodiesOK db)
    (uid pid ts : Nat) (content comment_input : String) (anon : Bool) :
    bodiesOK (submit_post db uid content anon ts) ∧
    bodiesOK (submit_comment db pid uid comment_input ts) ∧
    ((pyStrip content).data.isEmpty = true ∨ moderate_content content = true →
      submit_post db uid content anon ts = db) ∧
    ((pyStrip comment_input).data.isEmpty = true ∨ moderate_content comment_input = true →
      submit_comment db pid uid comment_input ts = db) := by
  refine ⟨?_, ?_, ?_, ?_⟩
  · rw [submit_post]
    by_cases hb : (pyStrip content).data.isEmpty = true
    · rw [if_pos hb]; exact hdb
    · rw [if_neg hb]
      by_cases hm : moderate_content content = true
      · rw [if_pos hm]; exact hdb
      · rw [if_neg hm]
        refine ⟨?_, hdb.2⟩
        intro p hp
        rw [add_post] at hp
        rcases List.mem_append.mp hp with h | h
        · exact hdb.1 p h
        · rw [List.mem_singleton.mp h]
          exact ⟨Bool.not_eq_true _ ▸ Bool.eq_false_iff.mpr hm,
                 Bool.eq_false_iff.mpr hb⟩
  · rw [submit_comment]
    by_cases hb : (pyStrip comment_input).data.isEmpty = true
    · rw [if_pos hb]; exact hdb
    · rw [if_neg hb]
      by_cases hm : moderate_content comment_input = true
      · rw [if_pos hm]; exact hdb
      · rw [if_neg hm]
        refine ⟨hdb.1, ?_⟩
        intro c hc
        rw [add_comment] at hc
        rcases List.mem_append.mp hc with h | h
        · exact hdb.2 c h
        · rw [List.mem_singleton.mp h]
          exact ⟨Bool.eq_false_iff.mpr hm, Bool.eq_false_iff.mpr hb⟩
  · rintro (h | h) <;> rw [submit_post]
    · rw [if_pos h]
    · by_cases hb : (pyStrip content).data.isEmpty = true
      · rw [if_pos hb]
      · rw [if_neg hb, if_pos h]
  · rintro (h | h) <;> rw [submit_comment]
    · rw [if_pos h]
    · by_cases hb : (pyStrip comment_input).data.isEmpty = true
      · rw [if_pos hb]
      · rw [if_neg hb, if_pos h]

/-- C3 witness: on an empty database, a clean body is persisted and the
invariant holds, while a flagged body is rejected without a write. -/
theorem C3_persisted_bodies_moderated_witness :
    bodiesOK (submit_post ⟨[], [], [], []⟩ 1 "feeling okay today" false 5) ∧
    submit_post ⟨[], [], [], []⟩ 1 "I hate this" false 5 = ⟨[], [], [], []⟩ :=
  ⟨(C3_persisted_bodies_moderated ⟨[], [], [], []⟩
      ⟨fun p hp => absurd hp (List.not_mem_nil p), fun c hc => absurd hc (List.not_mem_nil c)⟩
      1 1 5 "feeling okay today" "x" false).1,
   (C3_persisted_bodies_moderated ⟨[], [], [], []⟩
      ⟨fun p hp => absurd hp (List.not_mem_nil p), fun c hc => absurd hc (List.not_mem_nil c)⟩
      1 1 5 "I hate this" "x" false).2.2.1 (Or.inr (by decide))⟩

/-- C6: for every database state, `get_all_posts` is sorted with
non-increasing timestamps (newest first), and `get_comments` is sorted
with non-decreasing timestamps (oldest first) and contains only
comments whose post reference is the requested id. -/
theorem C6_listing_order (db : DB) (pid : Nat) :
    (get_all_posts db).Pairwise (fun a b => b.timestamp ≤ a.timestamp) ∧
    (get_comments db pid).Pairwise (fun a b => a.timestamp ≤ b.timestamp) ∧
    ∀ c ∈ get_comments db pid, c.post_id = pid := by
  refine ⟨?_, ?_, ?_⟩
  · refine List.Pairwise.imp ?_
      (List.sorted_mergeSort (fun a b c h1 h2 => ?_) (fun a b => ?_) db.posts)
    · intro a b hab
      simpa using hab
    · simp only [decide_eq_true_eq] at h1 h2 ⊢
      omega
    · simp only [Bool.or_eq_true, decide_eq_true_eq]
      omega
  · unfold get_comments
    refine List.Pairwise.imp ?_
      (List.sorted_mergeSort (fun a b c h1 h2 => ?_) (fun a b => ?_)
        (db.comments.filter (fun c => c.post_id == pid)))
    · intro a b hab
      simpa using hab
    · simp only [decide_eq_true_eq] at h1 h2 ⊢
      omega
    · simp only [Bool.or_eq_true, decide_eq_true_eq]
      omega
  · intro c hc
    have hmem := List.mem_mergeSort.mp hc
    have := (List.mem_filter.mp hmem).2
    simpa using this

/-- C6 witness: the comment filter evaluated on a one-post database. -/
theorem C6_listing_order_witness :
    (⟨1, 1, 1, "hi", 3⟩ : CommentRow).post_id = 1 :=
  (C6_listing_order ⟨[], [], [⟨1, 1, 1, "hi", 3⟩, ⟨2, 2, 1, "yo", 1⟩], []⟩ 1).2.2
    ⟨1, 1, 1, "hi", 3⟩
    (by simp [get_comments, List.filter])

/-- C7: when a user with a given name already exists, a second creation
call with the identical name fails with the distinct duplicate-username
error, and the existing record is still present in the state the caller
is left with. -/
theorem C7_duplicate_username (db : DB) (u : UserRow) (p2 : String) (hu : u ∈ db.users) :
    add_user db u.username p2 = Except.error DBError.duplicateUsername ∧
    u ∈ (dbAfter db (add_user db u.username p2)).users := by
  have hx : db.users.any (fun v => v.username == u.username) = true := by
    rw [List.any_eq_true]
    exact ⟨u, hu, by simp⟩
  have h1 : add_user db u.username p2 = Except.error DBError.duplicateUsername := by
    rw [add_user, if_pos hx]
  refine ⟨h1, ?_⟩
  rw [h1]
  exact hu

/-- C7 witness on a one-user database. -/
theorem C7_duplicate_username_witness :
    add_user ⟨[⟨1, "amina", "h1", "user"⟩], [], [], []⟩ "amina" "h2" =
      Except.error DBError.duplicateUsername :=
  (C7_duplicate_username ⟨[⟨1, "amina", "h1", "user"⟩], [], [], []⟩
    ⟨1, "amina", "h1", "user"⟩ "h2" (by decide)).1

/-- C8: a post stored with the anonymity flag set retains the true
author reference — identical to the non-anonymous row — and the flag
only switches the displayed attribution to "Anonymous". -/
theorem C8_anonymous_retains_author (db : DB) (uid ts : Nat) (content : String) :
    (add_post db uid content 1 ts).posts = db.posts ++ [post_row db uid content 1 ts] ∧
    (post_row db uid content 1 ts).user_id = uid ∧
    (post_row db uid content 1 ts).user_id = (post_row db uid content 0 ts).user_id ∧
    display_author db (post_row db uid content 1 ts) = "Anonymous" ∧
    display_author db (post_row db uid content 0 ts) = get_username_by_id db uid := by
  refine ⟨rfl, rfl, rfl, ?_, ?_⟩
  · simp [display_author, post_row]
  · simp [display_author, post_row]

/-- C10: registering a volunteer whose uploaded image filename collides
with an earlier one overwrites the stored bytes at the shared path
`volunteer_images/<name>`, while both volunteer records are kept and
reference that same path. -/
theorem C10_duplicate_filename_overwrites
    (st : VolState) (n1 r1 b1 n2 r2 b2 fname : String) (bytes1 bytes2 : List Nat) (t1 t2 : Nat)
    (h1 : n1.data.isEmpty = false) (h2 : r1.data.isEmpty = false)
    (h3 : b1.data.isEmpty = false) (h4 : n2.data.isEmpty = false)
    (h5 : r2.data.isEmpty = false) (h6 : b2.data.isEmpty = false) :
    read_file (register_volunteer (register_volunteer st n1 r1 b1 (some (fname, bytes1)) t1)
        n2 r2 b2 (some (fname, bytes2)) t2).files ("volunteer_images/" ++ fname) =
      some bytes2 ∧
    (register_volunteer (register_volunteer st n1 r1 b1 (some (fname, bytes1)) t1)
        n2 r2 b2 (some (fname, bytes2)) t2).db.volunteers =
      st.db.volunteers ++
        [vol_row st.db n1 r1 b1 ("volunteer_images/" ++ fname) t1,
         vol_row (register_volunteer st n1 r1 b1 (some (fname, bytes1)) t1).db
           n2 r2 b2 ("volunteer_images/" ++ fname) t2] ∧
    (vol_row st.db n1 r1 b1 ("volunteer_images/" ++ fname) t1).image_path =
      (vol_row (register_volunteer st n1 r1 b1 (some (fname, bytes1)) t1).db
        n2 r2 b2 ("volunteer_images/" ++ fname) t2).image_path := by
  simp only [register_volunteer, h1, h2, h3, h4, h5, h6, Bool.or_self, Bool.false_or,
    if_false, Bool.false_eq_true]
  refine ⟨?_, ?_, rfl⟩
  · simp [read_file, write_file]
  · simp [add_volunteer]

/-- C10 witness: two volunteers registered with the same filename on an
empty state. -/
theorem C10_duplicate_filename_overwrites_witness :
    read_file (register_volunteer
        (register_volunteer ⟨[], ⟨[], [], [], []⟩⟩ "Ann" "Psy" "bio" (some ("p.png", [1])) 1)
        "Ben" "Doc" "bio2" (some ("p.png", [2])) 2).files "volunteer_images/p.png" =
      some [2] :=
  (C10_duplicate_filename_overwrites ⟨[], ⟨[], [], [], []⟩⟩ "Ann" "Psy" "bio"
    "Ben" "Doc" "bio2" "p.png" [1] [2] 1 2
    (by decide) (by decide) (by decide) (by decide) (by decide) (by decide)).1

end WeCare
